import Mathlib

/-!
Verification of the multi-terminal resilience and synchronization subsystem of the
Ceybyte-POS backend, as a shallow embedding of the Python sources:

* utils/sync_service.py   — transaction journal (sync queue), conflict resolution, sync cycle
* utils/power_service.py  — UPS polling, power events, safe mode
* utils/network_service.py — connectivity probe, heartbeat
* models/terminal.py      — terminal registry row

Dictionaries from the source become structures carrying exactly the keys the embedded
operations read or write; JSON files become explicit values threaded through the
functions; timestamps are naturals (the source only ever compares them); battery
percentages are rationals (the source uses floats, compared against the integral
thresholds 20.0 and 10.0, where rational arithmetic is exact).
-/

namespace CeybytePOS

/-- An entry of the sync queue file (sync_queue.json).  Mirrors the dict built by
SyncService.queue_transaction: a transaction dict to which the service adds
queued_at, sync_status and retry_count; the drain later adds last_retry.  The
opaque transaction body ('type' plus its data payload) is modelled by a type tag
and a numeric payload identifier. -/
structure QueuedTxn where
  type : String
  data : Nat
  queued_at : Nat
  sync_status : String
  retry_count : Nat
  last_retry : Option Nat
deriving Repr, DecidableEq

/-- SyncService._load_sync_queue: returns the parsed file contents, or the empty
list when the file does not exist. -/
def loadSyncQueue (file : Option (List QueuedTxn)) : List QueuedTxn :=
  match file with
  | some queue => queue
  | none => []

/-- The queue entry built by SyncService.queue_transaction from an incoming
transaction dict at time now. -/
def mkQueuedTxn (type : String) (data : Nat) (now : Nat) : QueuedTxn :=
  { type := type, data := data, queued_at := now, sync_status := "pending"
    retry_count := 0, last_retry := none }

/-- SyncService.queue_transaction: load the queue file, append the stamped
transaction, save the file, return success.  The first component is the new
contents of sync_queue.json (what _save_sync_queue wrote), the second the
returned boolean. -/
def queue_transaction (file : Option (List QueuedTxn)) (type : String) (data : Nat)
    (now : Nat) : Option (List QueuedTxn) × Bool :=
  let queue := loadSyncQueue file
  let txn := mkQueuedTxn type data now
  let queue := queue ++ [txn]
  (some queue, true)

/-- The error message recorded by SyncService._process_sync_queue when an entry
reaches the retry limit. -/
def retryError (t : QueuedTxn) : String :=
  "Transaction failed after 3 retries: " ++ t.type

/-- The in-place mutation performed on a failing entry by the drain loop:
retry_count += 1, last_retry = now. -/
def bumpRetry (now : Nat) (t : QueuedTxn) : QueuedTxn :=
  { t with retry_count := t.retry_count + 1, last_retry := some now }

/-- Result of SyncService._process_sync_queue: the queue that is saved back to
sync_queue.json, the processed count and the error list of the returned dict,
plus the list of entries the loop attempted (in order), recording that the loop
visits every entry. -/
structure DrainResult where
  queue : List QueuedTxn
  processed : Nat
  errors : List String
  attempted : List QueuedTxn
deriving Repr, DecidableEq

/-- SyncService._process_sync_queue.  The loop iterates over a copy of the queue;
a successfully processed entry is removed from the queue, a failing entry has its
retry count bumped in place and is removed as well once the bumped count reaches
3 (recording an error message); otherwise the bumped entry stays.  The oracle ok
stands for _process_queued_transaction (which catches its own exceptions and
returns a boolean). -/
def processSyncQueue (ok : QueuedTxn → Bool) (now : Nat) : List QueuedTxn → DrainResult
  | [] => { queue := [], processed := 0, errors := [], attempted := [] }
  | t :: rest =>
    if ok t then
      let r := processSyncQueue ok now rest
      { queue := r.queue, processed := r.processed + 1, errors := r.errors
        attempted := t :: r.attempted }
    else
      let t' := bumpRetry now t
      if 3 ≤ t'.retry_count then
        let r := processSyncQueue ok now rest
        { queue := r.queue, processed := r.processed, errors := retryError t :: r.errors
          attempted := t :: r.attempted }
      else
        let r := processSyncQueue ok now rest
        { queue := t' :: r.queue, processed := r.processed, errors := r.errors
          attempted := t :: r.attempted }

/-- What becomes of one queue entry during a drain: removed when processed
successfully, removed with its retry budget exhausted, or kept with a bumped
retry count. -/
def drainKeeps (ok : QueuedTxn → Bool) (now : Nat) (t : QueuedTxn) : Option QueuedTxn :=
  if ok t then none
  else
    let t' := bumpRetry now t
    if 3 ≤ t'.retry_count then none else some t'

/-- Entries that the drain turns into error messages: failing entries whose
bumped retry count reaches the limit. -/
def drainDead (ok : QueuedTxn → Bool) (now : Nat) (t : QueuedTxn) : Bool :=
  !ok t && decide (3 ≤ (bumpRetry now t).retry_count)

/-- A record of the conflict log file (conflict_log.json), as read by
SyncService._resolve_conflicts.  Timestamps are the result of parsing the stored
ISO strings with datetime.fromisoformat: none models a missing key or a string
the parser rejects (either raises in the source and is caught, leaving the
conflict unresolved).  The two version snapshots are opaque record payloads;
the terminal fields carry the origin terminal recorded in each snapshot — the
resolver never reads them. -/
structure Conflict where
  id : Option Nat
  strategy : Option String
  table : String
  local_timestamp : Option Nat
  remote_timestamp : Option Nat
  local_data : Nat
  remote_data : Nat
  local_terminal : String
  remote_terminal : String
  retry_count : Nat
deriving Repr, DecidableEq

/-- The dict returned by SyncService._resolve_single_conflict. -/
structure Resolution where
  resolved : Bool
  strategy : Option String
  winner : Option String
  conflict_id : Option Nat
  reason : Option String
deriving Repr, DecidableEq

/-- SyncService._resolve_single_conflict.  Strategy defaults to last_write_wins;
under that strategy the remote version wins exactly when its timestamp is
strictly later, otherwise (including ties) the local version wins.  The winning
record is written through save_offline_data (the saveOk oracle, taking the table
name and the record); the resolved flag is that call's success.  A missing or
unparsable timestamp raises in the source and is caught, yielding an unresolved
result; an unknown strategy yields an unresolved result as well. -/
def resolveSingleConflict (saveOk : String → Nat → Bool) (c : Conflict) : Resolution :=
  let resolution_strategy := c.strategy.getD "last_write_wins"
  if resolution_strategy = "last_write_wins" then
    match c.local_timestamp, c.remote_timestamp with
    | some local_time, some remote_time =>
      let winning_record := if local_time < remote_time then c.remote_data else c.local_data
      let success := saveOk c.table winning_record
      { resolved := success, strategy := some resolution_strategy
        winner := some (if local_time < remote_time then "remote" else "local")
        conflict_id := c.id, reason := none }
    | _, _ =>
      { resolved := false, strategy := none, winner := none, conflict_id := none
        reason := some "invalid timestamp" }
  else
    { resolved := false, strategy := none, winner := none, conflict_id := none
      reason := some "Unknown strategy" }

/-- The terminal whose version a resolution keeps, read off the conflict record. -/
def winnerTerminal (c : Conflict) (r : Resolution) : Option String :=
  match r.winner with
  | some w =>
    if w = "remote" then some c.remote_terminal
    else if w = "local" then some c.local_terminal
    else none
  | none => none

/-- Result of SyncService._resolve_conflicts: the resolutions it returns to the
sync cycle and the conflict log it saves back to conflict_log.json. -/
structure ConflictsResult where
  resolutions : List Resolution
  log : List Conflict
deriving Repr, DecidableEq

/-- The in-place mutation performed on an unresolved conflict:
retry_count = get retry_count 0 + 1. -/
def bumpConflict (c : Conflict) : Conflict :=
  { c with retry_count := c.retry_count + 1 }

/-- SyncService._resolve_conflicts.  The loop iterates over a copy of the log; a
resolved conflict is appended to the returned resolutions and removed from the
log, an unresolved one has its retry count bumped in place and is removed as
well — without any resolution — once the bumped count reaches 3; otherwise the
bumped conflict stays in the log. -/
def resolveConflicts (saveOk : String → Nat → Bool) : List Conflict → ConflictsResult
  | [] => { resolutions := [], log := [] }
  | c :: rest =>
    let res := resolveSingleConflict saveOk c
    if res.resolved then
      let r := resolveConflicts saveOk rest
      { resolutions := res :: r.resolutions, log := r.log }
    else
      let c' := bumpConflict c
      if 3 ≤ c'.retry_count then
        let r := resolveConflicts saveOk rest
        { resolutions := r.resolutions, log := r.log }
      else
        let r := resolveConflicts saveOk rest
        { resolutions := r.resolutions, log := c' :: r.log }

/-- What becomes of one conflict-log record during a resolution pass: dropped
when resolved, dropped when its retry budget is exhausted, kept bumped
otherwise. -/
def conflictKeeps (saveOk : String → Nat → Bool) (c : Conflict) : Option Conflict :=
  if (resolveSingleConflict saveOk c).resolved then none
  else
    let c' := bumpConflict c
    if 3 ≤ c'.retry_count then none else some c'

/-- UPS information class from power_service.py, restricted to the fields the
safe-mode logic and event logging read.  Status is one of online, on_battery,
low_battery, critical, not_detected; the constructor default is not_detected
with battery level 0. -/
structure UPSInfo where
  status : String
  battery_level : ℚ
  estimated_runtime : Nat
deriving Repr, DecidableEq

/-- PowerService.low_battery_threshold (percent). -/
def low_battery_threshold : ℚ := 20

/-- PowerService.critical_battery_threshold (percent). -/
def critical_battery_threshold : ℚ := 10

/-- The should_activate condition of PowerService._check_safe_mode: status is
low_battery or critical, or the battery level is at or below the low-battery
threshold. -/
def shouldActivateSafeMode (u : UPSInfo) : Bool :=
  (u.status == "low_battery" || u.status == "critical")
    || decide (u.battery_level ≤ low_battery_threshold)

/-- Outcome of one PowerService._check_safe_mode call: the new value of the
safe_mode_active flag, the power event it logs (if any), and whether it invoked
_process_pending_receipts (which happens exactly in _deactivate_safe_mode). -/
structure SafeModeStep where
  active : Bool
  event : Option String
  flushed : Bool
deriving Repr, DecidableEq

/-- PowerService._check_safe_mode. -/
def checkSafeMode (active : Bool) (u : UPSInfo) : SafeModeStep :=
  let should := shouldActivateSafeMode u
  if should && !active then
    { active := true, event := some "safe_mode_activated", flushed := false }
  else if !should && active then
    { active := false, event := some "safe_mode_deactivated", flushed := true }
  else
    { active := active, event := none, flushed := false }

/-- Outcome of one PowerService._check_ups_status poll: the new current status,
the new safe-mode flag, the status-change event logged by the poll itself (if
any), the safe-mode event logged by _check_safe_mode (if any), and whether
deferred receipts were flushed. -/
structure UpsCheckResult where
  status : String
  safe_mode_active : Bool
  statusChangeEvent : Option String
  safeModeEvent : Option String
  flushed : Bool
deriving Repr, DecidableEq

/-- PowerService._check_ups_status, given the previous poll's classification
(current_ups_info.status), the safe-mode flag and the freshly queried UPS info:
logs a status_change event exactly when the classification differs from the
previous one, then runs _check_safe_mode. -/
def checkUpsStatus (old_status : String) (active : Bool) (u : UPSInfo) : UpsCheckResult :=
  let sc := if old_status = u.status then none else some ("status_change_" ++ u.status)
  let sm := checkSafeMode active u
  { status := u.status, safe_mode_active := sm.active, statusChangeEvent := sc
    safeModeEvent := sm.event, flushed := sm.flushed }

/-- A run of successive _check_safe_mode steps over a list of polled UPS reports,
returning the final safe-mode flag and how many times deferred receipts were
flushed. -/
def runSafeMode (active : Bool) : List UPSInfo → Bool × Nat
  | [] => (active, 0)
  | u :: rest =>
    let s := checkSafeMode active u
    let r := runSafeMode s.active rest
    (r.1, (if s.flushed then 1 else 0) + r.2)

/-- The UPSInfo produced by _check_linux_ups on a host without UPS tooling (and
by the UPSInfo constructor): status not_detected, battery level 0. -/
def upsNotDetected : UPSInfo := { status := "not_detected", battery_level := 0, estimated_runtime := 0 }

/-- A poll reporting the low_battery classification at 15 percent. -/
def upsLow15 : UPSInfo := { status := "low_battery", battery_level := 15, estimated_runtime := 10 }

/-- A poll reporting the online classification at 85 percent. -/
def upsOnline85 : UPSInfo := { status := "online", battery_level := 85, estimated_runtime := 45 }

/-- A row of the terminals table (models/terminal.py), restricted to the fields
the embedded operations read or write.  Status is one of online, offline,
maintenance, error; sync_status one of synced, pending, failed, conflict. -/
structure Terminal where
  terminal_id : String
  status : String
  last_seen : Option Nat
  last_heartbeat : Option Nat
  sync_status : String
  pending_sync_count : Nat
  last_sync_time : Option Nat
  avg_response_time_ms : Option Nat
  ups_connected : Bool
  ups_battery_level : Option Nat
  ups_status : Option String
deriving Repr, DecidableEq

/-- Terminal.update_heartbeat: stamp both heartbeat timestamps, and flip the
status to online only when it currently is offline. -/
def update_heartbeat (now : Nat) (t : Terminal) : Terminal :=
  let t := { t with last_heartbeat := some now, last_seen := some now }
  if t.status = "offline" then { t with status := "online" } else t

/-- Terminal.needs_sync: sync_status is pending or failed, or there are pending
queue entries. -/
def needs_sync (t : Terminal) : Bool :=
  (t.sync_status == "pending" || t.sync_status == "failed") || decide (0 < t.pending_sync_count)

/-- NetworkService.send_heartbeat for a registered current terminal: looks the
terminal up (none models a missing row or an unset current_terminal_id, returning
False), calls Terminal.update_heartbeat, stores the mock performance and UPS
readings, commits and returns True. -/
def send_heartbeat (terminal : Option Terminal) (now : Nat) : Option Terminal × Bool :=
  match terminal with
  | none => (none, false)
  | some t =>
    let t := update_heartbeat now t
    let t := { t with avg_response_time_ms := some 50, ups_connected := false
                      ups_battery_level := none, ups_status := none }
    (some t, true)

/-- The dict returned by NetworkService.check_network_connectivity. -/
structure ConnectivityStatus where
  network_available : Bool
  main_computer_reachable : Bool
  shared_folder_accessible : Bool
  database_accessible : Bool
  latency_ms : Option Nat
  error_message : Option String
deriving Repr, DecidableEq

/-- NetworkService.check_network_connectivity.  Inputs model the probe's
environment: whether the basic socket test to 8.8.8.8 succeeds, whether the
configured network path and the database file behind it exist, and the measured
path-check latency.  The basic test failing short-circuits everything; a client
terminal with a configured network path then checks the shared folder and the
database file; the main terminal (or a client with no configured path) reports
itself fully reachable with a 1 ms latency. -/
def check_network_connectivity (is_main_terminal : Bool) (network_path : Option String)
    (network_available : Bool) (path_exists : Bool) (db_exists : Bool)
    (elapsed_ms : Nat) : ConnectivityStatus :=
  let base : ConnectivityStatus :=
    { network_available := false, main_computer_reachable := false
      shared_folder_accessible := false, database_accessible := false
      latency_ms := none, error_message := none }
  if !network_available then
    { base with error_message := some "No network connectivity" }
  else
    let st := { base with network_available := true }
    if !is_main_terminal && network_path.isSome then
      if path_exists then
        { st with shared_folder_accessible := true, main_computer_reachable := true
                  database_accessible := db_exists, latency_ms := some elapsed_ms }
      else st
    else
      { st with main_computer_reachable := true, shared_folder_accessible := true
                database_accessible := true, latency_ms := some 1 }

/-- Outcome of SyncService._sync_table for one table, as consumed by sync_data:
success flag, records synced, errors (a raised exception is folded in as a
failed outcome carrying its message). -/
structure TableOutcome where
  success : Bool
  records : Nat
  errors : List String
deriving Repr, DecidableEq

/-- The dict returned by SyncService.sync_data. -/
structure SyncResult where
  success : Bool
  synced_tables : List String
  conflicts_resolved : Nat
  errors : List String
  records_synced : Nat
  message : Option String
deriving Repr, DecidableEq

/-- The tables sync_data iterates over. -/
def tables_to_sync : List String := ["products", "customers", "suppliers", "categories"]

/-- The full-path body of SyncService.sync_data, given the looked-up terminal
row, the outcome of _process_sync_queue (processed count and errors), the
per-table outcomes of _sync_table and the resolutions returned by
_resolve_conflicts.  It accumulates the synced tables, record counts and errors
over the four tracked tables, then stamps the terminal row: last_sync_time is
set to now, sync_status becomes synced exactly when the cycle collected no
errors (failed otherwise), and pending_sync_count is set to 0 unconditionally. -/
def sync_data_full (t : Terminal) (now : Nat) (queueProcessed : Nat)
    (queueErrors : List String) (tableOutcome : String → TableOutcome)
    (resolutions : List Resolution) : SyncResult × Terminal :=
  let folded := tables_to_sync.foldl
    (fun acc name =>
      let r := tableOutcome name
      if r.success then (acc.1 ++ [name], acc.2.1 + r.records, acc.2.2)
      else (acc.1, acc.2.1, acc.2.2 ++ r.errors))
    ([], queueProcessed, queueErrors)
  let errors := folded.2.2
  let t' := { t with last_sync_time := some now
                     sync_status := if errors = [] then "synced" else "failed"
                     pending_sync_count := 0 }
  ({ success := errors.isEmpty, synced_tables := folded.1
     conflicts_resolved := resolutions.length, errors := errors
     records_synced := folded.2.1, message := none }, t')

/-- SyncService.sync_data entry points: an unknown terminal id yields a failed
result without touching any row; a terminal that does not need syncing (and no
force flag) returns early without mutation; otherwise the full cycle body
sync_data_full runs and its updated row is committed. -/
def sync_data (terminal : Option Terminal) (terminal_id : String) (force_sync : Bool)
    (now : Nat) (queueProcessed : Nat) (queueErrors : List String)
    (tableOutcome : String → TableOutcome) (resolutions : List Resolution) :
    SyncResult × Option Terminal :=
  match terminal with
  | none =>
    ({ success := false, synced_tables := [], conflicts_resolved := 0
       errors := ["Terminal " ++ terminal_id ++ " not found"]
       records_synced := 0, message := none }, none)
  | some t =>
    if !force_sync && !needs_sync t then
      ({ success := true, synced_tables := [], conflicts_resolved := 0
         errors := [], records_synced := 0, message := some "No sync needed" }, some t)
    else
      let r := sync_data_full t now queueProcessed queueErrors tableOutcome resolutions
      (r.1, some r.2)

/-- A queued sale transaction that has already failed twice. -/
def deadTxn : QueuedTxn :=
  { type := "sale", data := 7, queued_at := 0, sync_status := "pending"
    retry_count := 2, last_retry := some 90 }

/-- An application oracle under which every queued transaction fails. -/
def alwaysFails : QueuedTxn → Bool := fun _ => false

/-- The n-th sample entry of the five-entry drain scenario. -/
def sampleEntry (n : Nat) : QueuedTxn :=
  { type := "sale", data := n, queued_at := n, sync_status := "pending"
    retry_count := 0, last_retry := none }

/-- Five queued entries, in order. -/
def fiveEntries : List QueuedTxn :=
  [sampleEntry 1, sampleEntry 2, sampleEntry 3, sampleEntry 4, sampleEntry 5]

/-- An application oracle under which exactly the third sample entry fails. -/
def okExceptThird : QueuedTxn → Bool := fun t => !(t.data == 3)

/-- A save_offline_data oracle that always succeeds. -/
def allSavesOk : String → Nat → Bool := fun _ _ => true

/-- Two divergent versions of a customer record with equal timestamps: the
version held locally (payload 10) originated at TERM-A, the remote one
(payload 20) at TERM-B. -/
def conflictAB : Conflict :=
  { id := some 1, strategy := none, table := "customers"
    local_timestamp := some 100, remote_timestamp := some 100
    local_data := 10, remote_data := 20
    local_terminal := "TERM-A", remote_terminal := "TERM-B", retry_count := 0 }

/-- The same two versions with the arrival sides swapped: now the TERM-B
version (payload 20) is the locally held one. -/
def conflictBA : Conflict :=
  { id := some 1, strategy := none, table := "customers"
    local_timestamp := some 100, remote_timestamp := some 100
    local_data := 20, remote_data := 10
    local_terminal := "TERM-B", remote_terminal := "TERM-A", retry_count := 0 }

/-- A conflict whose stored local timestamp does not parse, already deferred
twice. -/
def staleConflict : Conflict :=
  { id := some 2, strategy := none, table := "products"
    local_timestamp := none, remote_timestamp := some 100
    local_data := 1, remote_data := 2
    local_terminal := "TERM-A", remote_terminal := "TERM-B", retry_count := 2 }

/-- A registered terminal whose status is maintenance. -/
def maintenanceTerminal : Terminal :=
  { terminal_id := "POS-2", status := "maintenance", last_seen := none
    last_heartbeat := none, sync_status := "pending", pending_sync_count := 0
    last_sync_time := none, avg_response_time_ms := none, ups_connected := false
    ups_battery_level := none, ups_status := none }

/-- A terminal with queued work whose previous cycle failed. -/
def backloggedTerminal : Terminal :=
  { terminal_id := "POS-3", status := "online", last_seen := some 400
    last_heartbeat := some 400, sync_status := "failed", pending_sync_count := 5
    last_sync_time := some 300, avg_response_time_ms := some 50
    ups_connected := false, ups_battery_level := none, ups_status := none }

/-- Table outcomes where syncing the products table fails with an error. -/
def failingTables : String → TableOutcome := fun name =>
  if name == "products" then
    { success := false, records := 0, errors := ["Error syncing products: database is locked"] }
  else
    { success := true, records := 0, errors := [] }

lemma processSyncQueue_queue (ok : QueuedTxn → Bool) (now : Nat) (q : List QueuedTxn) :
    (processSyncQueue ok now q).queue = q.filterMap (drainKeeps ok now) := by
  induction q with
  | nil => simp [processSyncQueue]
  | cons t rest ih =>
    by_cases h : ok t
    · simp [processSyncQueue, drainKeeps, h, ih]
    · by_cases h3 : 3 ≤ (bumpRetry now t).retry_count
      · simp [processSyncQueue, drainKeeps, h, h3, ih]
      · simp [processSyncQueue, drainKeeps, h, h3, ih]

lemma processSyncQueue_attempted (ok : QueuedTxn → Bool) (now : Nat) (q : List QueuedTxn) :
    (processSyncQueue ok now q).attempted = q := by
  induction q with
  | nil => simp [processSyncQueue]
  | cons t rest ih =>
    by_cases h : ok t
    · simp [processSyncQueue, h, ih]
    · by_cases h3 : 3 ≤ (bumpRetry now t).retry_count
      · simp [processSyncQueue, h, h3, ih]
      · simp [processSyncQueue, h, h3, ih]

lemma processSyncQueue_processed (ok : QueuedTxn → Bool) (now : Nat) (q : List QueuedTxn) :
    (processSyncQueue ok now q).processed = q.countP ok := by
  induction q with
  | nil => simp [processSyncQueue]
  | cons t rest ih =>
    by_cases h : ok t
    · simp [processSyncQueue, h, ih, List.countP_cons]
    · by_cases h3 : 3 ≤ (bumpRetry now t).retry_count
      · simp [processSyncQueue, h, h3, ih, List.countP_cons]
      · simp [processSyncQueue, h, h3, ih, List.countP_cons]

lemma processSyncQueue_errors (ok : QueuedTxn → Bool) (now : Nat) (q : List QueuedTxn) :
    (processSyncQueue ok now q).errors = (q.filter (drainDead ok now)).map retryError := by
  induction q with
  | nil => simp [processSyncQueue]
  | cons t rest ih =>
    by_cases h : ok t
    · simp [processSyncQueue, drainDead, h, ih]
    · by_cases h3 : 3 ≤ (bumpRetry now t).retry_count
      · simp [processSyncQueue, drainDead, h, h3, ih]
      · simp [processSyncQueue, drainDead, h, h3, ih]

lemma drainKeeps_retry_lt (ok : QueuedTxn → Bool) (now : Nat) (t u : QueuedTxn)
    (h : drainKeeps ok now t = some u) : u.retry_count < 3 := by
  unfold drainKeeps at h
  by_cases hok : ok t
  · simp [hok] at h
  · by_cases h3 : 3 ≤ (bumpRetry now t).retry_count
    · simp [hok, h3] at h
    · simp [hok, h3] at h
      rw [← h]
      simp [bumpRetry] at h3 ⊢
      omega

lemma resolveConflicts_log (saveOk : String → Nat → Bool) (log : List Conflict) :
    (resolveConflicts saveOk log).log = log.filterMap (conflictKeeps saveOk) := by
  induction log with
  | nil => simp [resolveConflicts]
  | cons c rest ih =>
    by_cases h : (resolveSingleConflict saveOk c).resolved
    · simp [resolveConflicts, conflictKeeps, h, ih]
    · by_cases h3 : 3 ≤ (bumpConflict c).retry_count
      · simp [resolveConflicts, conflictKeeps, h, h3, ih]
      · simp [resolveConflicts, conflictKeeps, h, h3, ih]

lemma resolveConflicts_resolutions (saveOk : String → Nat → Bool) (log : List Conflict) :
    (resolveConflicts saveOk log).resolutions
      = (log.filter fun c => (resolveSingleConflict saveOk c).resolved).map
          (resolveSingleConflict saveOk) := by
  induction log with
  | nil => simp [resolveConflicts]
  | cons c rest ih =>
    by_cases h : (resolveSingleConflict saveOk c).resolved
    · simp [resolveConflicts, h, ih]
    · by_cases h3 : 3 ≤ (bumpConflict c).retry_count
      · simp [resolveConflicts, h, h3, ih]
      · simp [resolveConflicts, h, h3, ih]

lemma resolveSingleConflict_invalid (saveOk : String → Nat → Bool) (c : Conflict)
    (h : c.local_timestamp = none ∨ c.remote_timestamp = none) :
    (resolveSingleConflict saveOk c).resolved = false
      ∧ (resolveSingleConflict saveOk c).winner = none := by
  unfold resolveSingleConflict
  by_cases hs : c.strategy.getD "last_write_wins" = "last_write_wins"
  · rcases h with h | h <;> simp [hs, h]
  · simp [hs]

lemma conflictKeeps_retry_lt (saveOk : String → Nat → Bool) (c d : Conflict)
    (h : conflictKeeps saveOk c = some d) : d.retry_count < 3 := by
  unfold conflictKeeps at h
  by_cases hres : (resolveSingleConflict saveOk c).resolved
  · simp [hres] at h
  · by_cases h3 : 3 ≤ (bumpConflict c).retry_count
    · simp [hres, h3] at h
    · simp [hres, h3] at h
      rw [← h]
      simp [bumpConflict] at h3 ⊢
      omega

/-- Claim C1, counterexample.  The claim says an entry that has failed the
maximum of 3 retries moves to a permanent dead-letter status, remaining stored
and queryable and never silently deleted.  In the code the drain removes such an
entry from the queue outright: starting from a queue holding one entry at retry
count 2 whose processing fails again, the queue saved back to sync_queue.json —
the only storage the journal has — is empty, and all that remains is a transient
error string in that cycle's result dict. -/
theorem claim_C1_counterexample :
    (processSyncQueue alwaysFails 100 [deadTxn]).queue = []
      ∧ (processSyncQueue alwaysFails 100 [deadTxn]).errors = [retryError deadTxn] :=
  ⟨rfl, rfl⟩

/-- Claim C1 as amended: a queued transaction whose processing has failed the
configured maximum of 3 retries is removed from the persisted queue entirely —
an error message is appended to that cycle's result, but the entry is not kept
in any dead-letter status; indeed every entry surviving a drain has retry count
below 3. -/
theorem claim_C1_failed_entry_removed_not_dead_lettered
    (ok : QueuedTxn → Bool) (now : Nat) (q : List QueuedTxn) (t : QueuedTxn)
    (hmem : t ∈ q) (hfail : ok t = false) (hmax : 2 ≤ t.retry_count) :
    retryError t ∈ (processSyncQueue ok now q).errors
      ∧ ∀ u ∈ (processSyncQueue ok now q).queue, u.retry_count < 3 := by
  constructor
  · rw [processSyncQueue_errors]
    refine List.mem_map.mpr ⟨t, List.mem_filter.mpr ⟨hmem, ?_⟩, rfl⟩
    simp [drainDead, hfail, bumpRetry]
    omega
  · intro u hu
    rw [processSyncQueue_queue] at hu
    obtain ⟨v, _, hkeep⟩ := List.mem_filterMap.mp hu
    exact drainKeeps_retry_lt ok now v u hkeep

/-- Claim C1 witness: the amended statement evaluated on the one-entry queue of
the counterexample. -/
theorem claim_C1_failed_entry_removed_not_dead_lettered_witness :
    retryError deadTxn ∈ (processSyncQueue alwaysFails 100 [deadTxn]).errors
      ∧ ∀ u ∈ (processSyncQueue alwaysFails 100 [deadTxn]).queue, u.retry_count < 3 :=
  claim_C1_failed_entry_removed_not_dead_lettered alwaysFails 100 [deadTxn] deadTxn
    (List.mem_singleton.mpr rfl) rfl (by decide)

/-- Claim C2 (confirmed): once queue_transaction returns success, the enqueued
entry has been written to sync_queue.json, so pendingEntries — modelled as
_load_sync_queue reading that file, exactly what a freshly restarted process
does — observes it: the loaded queue is the previous queue with the new entry
appended. -/
theorem claim_C2_enqueue_durable_and_observable (file : Option (List QueuedTxn))
    (ty : String) (data now : Nat) :
    (queue_transaction file ty data now).2 = true
      ∧ loadSyncQueue (queue_transaction file ty data now).1
          = loadSyncQueue file ++ [mkQueuedTxn ty data now]
      ∧ mkQueuedTxn ty data now ∈ loadSyncQueue (queue_transaction file ty data now).1 := by
  refine ⟨rfl, rfl, ?_⟩
  simp [queue_transaction, loadSyncQueue]

/-- Claim C3, counterexample.  The claim says equal-timestamp ties are broken by
terminal id ordering, so that the same pair of versions yields the same winner
regardless of arrival order.  An id-based tie-break must keep the same winning
terminal when the two sides are swapped; the code instead always keeps the
locally held version: for the same two equal-timestamp versions the winning
terminal is TERM-A when TERM-A's version is local and TERM-B when TERM-B's is
local. -/
theorem claim_C3_counterexample :
    conflictAB.local_timestamp = conflictAB.remote_timestamp
      ∧ conflictBA.local_timestamp = conflictBA.remote_timestamp
      ∧ winnerTerminal conflictAB (resolveSingleConflict allSavesOk conflictAB) = some "TERM-A"
      ∧ winnerTerminal conflictBA (resolveSingleConflict allSavesOk conflictBA) = some "TERM-B" :=
  ⟨rfl, rfl, rfl, rfl⟩

/-- Claim C3 as amended: under the last-write-wins strategy with both timestamps
valid, the remote version wins exactly when its timestamp is strictly later, and
an equal-timestamp tie deterministically favors the local version — terminal ids
are not consulted.  Resolution is a pure function of the conflict record, so
repeated calls with the same inputs produce the same winner. -/
theorem claim_C3_lww_ties_favor_local (saveOk : String → Nat → Bool) (c : Conflict)
    (lt rt : Nat) (hs : c.strategy = none ∨ c.strategy = some "last_write_wins")
    (hl : c.local_timestamp = some lt) (hr : c.remote_timestamp = some rt) :
    (resolveSingleConflict saveOk c).winner
      = some (if lt < rt then "remote" else "local") := by
  have hs' : c.strategy.getD "last_write_wins" = "last_write_wins" := by
    rcases hs with h | h <;> simp [h]
  unfold resolveSingleConflict
  simp [hs', hl, hr]

/-- Claim C3 witness: the amended statement evaluated on the equal-timestamp
conflict, where the local version wins. -/
theorem claim_C3_lww_ties_favor_local_witness :
    (resolveSingleConflict allSavesOk conflictAB).winner
      = some (if 100 < 100 then "remote" else "local") :=
  claim_C3_lww_ties_favor_local allSavesOk conflictAB 100 100 (Or.inl rfl) rfl rfl

/-- Claim C4, counterexample.  The claim says the controller is in SafeMode
exactly when the most recent classification is low_battery or critical.  The
code also activates on battery_level ≤ low threshold alone: a poll classified
not_detected with battery level 0 — exactly what _check_linux_ups returns on a
host without UPS tooling, and the UPSInfo constructor default — switches safe
mode on although the classification is neither low_battery nor critical. -/
theorem claim_C4_counterexample :
    (checkSafeMode false upsNotDetected).active = true
      ∧ upsNotDetected.status ≠ "low_battery"
      ∧ upsNotDetected.status ≠ "critical" := by
  refine ⟨by decide, by decide, by decide⟩

/-- Claim C4 as amended: after each _check_safe_mode step the controller is in
SafeMode exactly when the report has status low_battery or critical or battery
level at or below the low threshold (20 percent); deferred receipts are flushed
exactly on a step that deactivates safe mode.  In particular, for the scenario
of a low_battery report at 15 percent followed by an online report at 85
percent, safe mode turns on and then off again with exactly one flush. -/
theorem claim_C4_safe_mode_tracks_power_state (active : Bool) (u : UPSInfo) :
    (checkSafeMode active u).active = shouldActivateSafeMode u
      ∧ (checkSafeMode active u).flushed = (active && !shouldActivateSafeMode u)
      ∧ (checkSafeMode false upsLow15).active = true
      ∧ runSafeMode false [upsLow15, upsOnline85] = (false, 1) := by
  refine ⟨?_, ?_, by decide, by decide⟩
  · cases hA : active <;> cases hS : shouldActivateSafeMode u <;>
      simp [checkSafeMode, hS]
  · cases hA : active <;> cases hS : shouldActivateSafeMode u <;>
      simp [checkSafeMode, hS]

/-- Claim C5, counterexample.  The claim says unresolved conflicts are never
discarded and persist in the conflict log.  A conflict whose local timestamp
does not parse is indeed left unresolved, but once its retry count reaches 3 the
code removes it from the log: a log holding one such conflict at retry count 2
is saved back empty, with no resolution produced. -/
theorem claim_C5_counterexample :
    (resolveSingleConflict allSavesOk staleConflict).resolved = false
      ∧ (resolveConflicts allSavesOk [staleConflict]).log = []
      ∧ (resolveConflicts allSavesOk [staleConflict]).resolutions = [] :=
  ⟨rfl, rfl, rfl⟩

/-- Claim C5 as amended: a conflict with a missing or invalid timestamp is
deferred — left unresolved with no winner guessed — and persists in the conflict
log (with its retry count bumped) only while it has been attempted fewer than 3
times; on the attempt that takes its retry count to 3 it is removed from the log
without being resolved, and every conflict surviving a pass has retry count
below 3. -/
theorem claim_C5_unresolved_conflict_discarded_after_three_attempts
    (saveOk : String → Nat → Bool) (c : Conflict) (log : List Conflict)
    (hinv : c.local_timestamp = none ∨ c.remote_timestamp = none) :
    (resolveSingleConflict saveOk c).resolved = false
      ∧ (resolveSingleConflict saveOk c).winner = none
      ∧ (c ∈ log → c.retry_count + 1 < 3 →
          bumpConflict c ∈ (resolveConflicts saveOk log).log)
      ∧ (3 ≤ c.retry_count + 1 → bumpConflict c ∉ (resolveConflicts saveOk log).log)
      ∧ ∀ d ∈ (resolveConflicts saveOk log).log, d.retry_count < 3 := by
  obtain ⟨hres, hwin⟩ := resolveSingleConflict_invalid saveOk c hinv
  have hkept : ∀ d ∈ (resolveConflicts saveOk log).log, d.retry_count < 3 := by
    intro d hd
    rw [resolveConflicts_log] at hd
    obtain ⟨e, _, hkeep⟩ := List.mem_filterMap.mp hd
    exact conflictKeeps_retry_lt saveOk e d hkeep
  refine ⟨hres, hwin, ?_, ?_, hkept⟩
  · intro hmem hlt
    rw [resolveConflicts_log]
    refine List.mem_filterMap.mpr ⟨c, hmem, ?_⟩
    simp [conflictKeeps, hres, bumpConflict]
    omega
  · intro h3 habs
    have := hkept (bumpConflict c) habs
    simp [bumpConflict] at this
    omega

/-- Claim C5 witness: the amended statement evaluated on the invalid-timestamp
conflict at retry count 2, in a log holding exactly that conflict. -/
theorem claim_C5_unresolved_conflict_discarded_after_three_attempts_witness :
    (resolveSingleConflict allSavesOk staleConflict).resolved = false
      ∧ (resolveSingleConflict allSavesOk staleConflict).winner = none
      ∧ (staleConflict ∈ [staleConflict] → staleConflict.retry_count + 1 < 3 →
          bumpConflict staleConflict ∈ (resolveConflicts allSavesOk [staleConflict]).log)
      ∧ (3 ≤ staleConflict.retry_count + 1 →
          bumpConflict staleConflict ∉ (resolveConflicts allSavesOk [staleConflict]).log)
      ∧ ∀ d ∈ (resolveConflicts allSavesOk [staleConflict]).log, d.retry_count < 3 :=
  claim_C5_unresolved_conflict_discarded_after_three_attempts allSavesOk staleConflict
    [staleConflict] (Or.inl rfl)

/-- Claim C6 (confirmed): the drain attempts every queued entry — a failing
entry never stops the loop — the processed count is the number of entries whose
application succeeds, and the saved queue keeps exactly the failing entries
still under the retry limit (successful entries are removed, i.e. applied).
For the scenario of five queued entries of which exactly the third fails, all
five are attempted, four are processed, and only the third — retry count
bumped — remains pending; entries 4 and 5 are gone from the pending queue. -/
theorem claim_C6_drain_continues_past_failing_entry (ok : QueuedTxn → Bool)
    (now : Nat) (q : List QueuedTxn) :
    (processSyncQueue ok now q).attempted = q
      ∧ (processSyncQueue ok now q).processed = q.countP ok
      ∧ (processSyncQueue ok now q).queue = q.filterMap (drainKeeps ok now)
      ∧ (processSyncQueue okExceptThird 100 fiveEntries).attempted = fiveEntries
      ∧ (processSyncQueue okExceptThird 100 fiveEntries).processed = 4
      ∧ (processSyncQueue okExceptThird 100 fiveEntries).queue
          = [bumpRetry 100 (sampleEntry 3)] :=
  ⟨processSyncQueue_attempted ok now q, processSyncQueue_processed ok now q,
    processSyncQueue_queue ok now q, by decide, by decide, by decide⟩

/-- Claim C7, counterexample.  The claim says a heartbeat sets the terminal's
status to online whatever it was before.  Terminal.update_heartbeat only flips
offline to online: a terminal in maintenance keeps status maintenance after a
heartbeat. -/
theorem claim_C7_counterexample :
    (update_heartbeat 100 maintenanceTerminal).status = "maintenance"
      ∧ (update_heartbeat 100 maintenanceTerminal).status ≠ "online" :=
  ⟨rfl, by decide⟩

/-- Claim C7 as amended: a heartbeat always stamps both the last-seen and
last-heartbeat timestamps, and flips the status to online exactly when the
terminal was offline, leaving any other status (maintenance, error, online)
unchanged; send_heartbeat applies exactly this update to the registered
terminal row (plus the mock performance and UPS readings) and returns success. -/
theorem claim_C7_heartbeat_updates_timestamps_flips_offline_only
    (now : Nat) (t : Terminal) :
    (update_heartbeat now t).last_heartbeat = some now
      ∧ (update_heartbeat now t).last_seen = some now
      ∧ (update_heartbeat now t).status
          = (if t.status = "offline" then "online" else t.status)
      ∧ send_heartbeat (some t) now
          = (some { update_heartbeat now t with avg_response_time_ms := some 50
                                                ups_connected := false
                                                ups_battery_level := none
                                                ups_status := none }, true) := by
  by_cases h : t.status = "offline" <;>
    simp [update_heartbeat, send_heartbeat, h]

/-- Claim C8, counterexample.  The claim says the probe on the main terminal
always reports full reachability with near-zero latency, under every network
condition.  The probe first tests basic internet reachability and
short-circuits on failure even on the main terminal: with the basic socket
test failing, the report marks the main computer unreachable, the database
inaccessible, no latency, and the no-connectivity error. -/
theorem claim_C8_counterexample :
    (check_network_connectivity true none false true true 0).main_computer_reachable = false
      ∧ (check_network_connectivity true none false true true 0).database_accessible = false
      ∧ (check_network_connectivity true none false true true 0).latency_ms = none
      ∧ (check_network_connectivity true none false true true 0).error_message
          = some "No network connectivity" :=
  ⟨rfl, rfl, rfl, rfl⟩

/-- Claim C8 as amended: on the main terminal the probe reports full
reachability — main computer reachable, shared folder and database accessible —
with a fixed 1 ms latency whenever the basic network connectivity test
succeeds; when that test fails it reports everything unreachable with the
no-connectivity error message. -/
theorem claim_C8_main_terminal_probe (network_path : Option String)
    (path_exists db_exists : Bool) (elapsed_ms : Nat) :
    check_network_connectivity true network_path true path_exists db_exists elapsed_ms
      = { network_available := true, main_computer_reachable := true
          shared_folder_accessible := true, database_accessible := true
          latency_ms := some 1, error_message := none }
      ∧ check_network_connectivity true network_path false path_exists db_exists elapsed_ms
        = { network_available := false, main_computer_reachable := false
            shared_folder_accessible := false, database_accessible := false
            latency_ms := none, error_message := some "No network connectivity" } :=
  ⟨rfl, rfl⟩

/-- Claim C9 (confirmed): a UPS status poll logs a status-change PowerEvent
exactly when the fresh classification differs from the previous poll's, and
never logs one when they agree — the event, when present, is the
status_change tag of the new classification. -/
theorem claim_C9_event_exactly_on_classification_change (old_status : String)
    (active : Bool) (u : UPSInfo) :
    ((checkUpsStatus old_status active u).statusChangeEvent.isSome = true
        ↔ old_status ≠ u.status)
      ∧ (checkUpsStatus old_status active u).statusChangeEvent
          = (if old_status = u.status then none
             else some ("status_change_" ++ u.status)) := by
  constructor
  · by_cases h : old_status = u.status <;> simp [checkUpsStatus, h]
  · by_cases h : old_status = u.status <;> simp [checkUpsStatus, h]

/-- Claim C10 (confirmed): whenever sync_data runs its full cycle on an existing
terminal (forced, or the terminal needs syncing), the committed terminal row has
pending_sync_count 0 unconditionally — also when the cycle collected errors —
its sync_status is synced exactly when the cycle's error list is empty and
failed otherwise, and the result's success flag holds exactly when the error
list is empty. -/
theorem claim_C10_sync_clears_pending_count (t : Terminal) (terminal_id : String)
    (force_sync : Bool) (now queueProcessed : Nat) (queueErrors : List String)
    (tableOutcome : String → TableOutcome) (resolutions : List Resolution)
    (h : force_sync = true ∨ needs_sync t = true) :
    ((sync_data (some t) terminal_id force_sync now queueProcessed queueErrors
        tableOutcome resolutions).2.map Terminal.pending_sync_count) = some 0
      ∧ ((sync_data (some t) terminal_id force_sync now queueProcessed queueErrors
          tableOutcome resolutions).2.map Terminal.sync_status)
        = some (if (sync_data (some t) terminal_id force_sync now queueProcessed
            queueErrors tableOutcome resolutions).1.errors = [] then "synced" else "failed")
      ∧ ((sync_data (some t) terminal_id force_sync now queueProcessed queueErrors
          tableOutcome resolutions).1.success = true
        ↔ (sync_data (some t) terminal_id force_sync now queueProcessed queueErrors
            tableOutcome resolutions).1.errors = []) := by
  have hg : (!force_sync && !needs_sync t) = false := by
    rcases h with h | h <;> simp [h]
  simp only [sync_data, hg, Bool.false_eq_true, if_false]
  refine ⟨rfl, rfl, ?_⟩
  simp [sync_data_full, List.isEmpty_iff]

/-- Claim C10 witness: a terminal with failed sync status and five pending items
runs a cycle in which the products table fails; the committed row still has
pending_sync_count 0 while its sync_status is failed and the result reports the
error. -/
theorem claim_C10_sync_clears_pending_count_witness :
    ((sync_data (some backloggedTerminal) "POS-3" false 500 2 [] failingTables
        []).2.map Terminal.pending_sync_count) = some 0
      ∧ ((sync_data (some backloggedTerminal) "POS-3" false 500 2 [] failingTables
          []).2.map Terminal.sync_status)
        = some (if (sync_data (some backloggedTerminal) "POS-3" false 500 2 []
            failingTables []).1.errors = [] then "synced" else "failed")
      ∧ ((sync_data (some backloggedTerminal) "POS-3" false 500 2 [] failingTables
          []).1.success = true
        ↔ (sync_data (some backloggedTerminal) "POS-3" false 500 2 [] failingTables
            []).1.errors = []) :=
  claim_C10_sync_clears_pending_count backloggedTerminal "POS-3" false 500 2 []
    failingTables [] (Or.inr rfl)

end CeybytePOS
